import Mathlib

/-!
Shallow embedding of the woxQAQ/mcp-gateway core (Python) in Lean 4, used to
settle the claims of the natural-language specification against the source.

Conventions of the embedding:
* Python dicts that the gateway iterates / mutates are association lists
  `List (String × V)` with Python's insertion semantics (`dictGet`,
  `dictInsert`); Python lists are Lean lists; strings are Lean `String`.
* Async functions are pure functions on explicit state; an operation that can
  raise is an `Except`.
* Bytes payloads that the code only moves around opaquely are modelled by the
  structured value they serialize.
-/

namespace MyUnla

/-- Lookup in a Python dict modelled as an association list (`d.get(k)`). -/
def dictGet {V : Type} (d : List (String × V)) (k : String) : Option V :=
  (d.find? (fun p => p.1 = k)).map (fun p => p.2)

/-- Membership test for a Python dict key (`k in d`). -/
def dictContains {V : Type} (d : List (String × V)) (k : String) : Bool :=
  d.any (fun p => p.1 = k)

/-- Python dict assignment `d[k] = v`: an existing key keeps its position and
gets the new value, a new key is appended at the end. -/
def dictInsert {V : Type} (d : List (String × V)) (k : String) (v : V) :
    List (String × V) :=
  if dictContains d k then
    d.map (fun p => if p.1 = k then (k, v) else p)
  else
    d ++ [(k, v)]

/-! ## Session store: `myunla/gateway/session/memory.py` -/

/-- Event message of `myunla/gateway/session/session.py` (`Message`): an event
name and a data payload (bytes modelled as a string). -/
structure Message where
  event : String
  data : String
  deriving DecidableEq, Repr

/-- Errors `MemoryConnection.send` can raise (`RuntimeError("Connection is
closed")` and `RuntimeError("message queue is full")` in the source). -/
inductive SendError where
  | connectionClosed
  | queueFull
  deriving DecidableEq, Repr

/-- State of a `MemoryConnection` of `myunla/gateway/session/memory.py`: the
bounded `asyncio.Queue` content (head = front) and the closed flag. -/
structure MemoryConnection where
  queue : List Message
  closed : Bool
  deriving DecidableEq, Repr

/-- Queue bound of `MemoryConnection.__init__`: `asyncio.Queue(maxsize=100)`. -/
def queueMaxSize : Nat := 100

/-- Fresh connection as built by `MemoryConnection.__init__`. -/
def MemoryConnection.new : MemoryConnection :=
  { queue := [], closed := false }

/-- Embedding of `MemoryConnection.send`: raise `connectionClosed` when the
closed flag is set, otherwise `put_nowait`, which raises `queueFull` when the
queue holds `maxsize` messages and appends at the tail otherwise. -/
def MemoryConnection.send (c : MemoryConnection) (m : Message) :
    Except SendError MemoryConnection :=
  if c.closed then
    .error .connectionClosed
  else if queueMaxSize ≤ c.queue.length then
    .error .queueFull
  else
    .ok { c with queue := c.queue ++ [m] }

/-- Observable step of `send`: the connection state after the call together
with the error surfaced to the caller, if any (a raised error leaves the
connection exactly as it was). -/
def MemoryConnection.sendStep (c : MemoryConnection) (m : Message) :
    MemoryConnection × Option SendError :=
  match c.send m with
  | .ok c' => (c', none)
  | .error e => (c, some e)

/-- Embedding of `MemoryConnection.close`: drain the queue and set the closed
flag; closing an already-closed connection changes nothing. -/
def MemoryConnection.close (c : MemoryConnection) : MemoryConnection :=
  if c.closed then c else { queue := [], closed := true }

/-! ## Composite notifier: `myunla/gateway/notifier/composite_notifier.py` -/

/-- Observable behaviour of one child notifier during a `notify_update`
broadcast: its role gates (`can_send` / `can_receive`) and whether its own
`notify_update` succeeds. -/
structure ChildNotifier where
  canSend : Bool
  canReceive : Bool
  sendOk : Bool
  deriving DecidableEq, Repr

/-- Errors of `CompositeNotifier.notify_update`: the role guard
(`"notifier is not configured to send updates"`) and the all-children-failed
error (`"all underlying notifiers failed"`). -/
inductive NotifyErr where
  | wrongRole
  | allFailed
  deriving DecidableEq, Repr

/-- Embedding of `CompositeNotifier.notify_update`: raise `wrongRole` unless
some child can send; otherwise attempt every child whose `can_send()` is true,
counting successes and remembering whether any failed; raise `allFailed` when
the success count is zero and a failure occurred, else return the count. -/
def notifyUpdate (children : List ChildNotifier) : Except NotifyErr Nat :=
  if children.any (fun c => c.canSend) = false then
    .error .wrongRole
  else
    let senders := children.filter (fun c => c.canSend)
    let successCount := (senders.filter (fun c => c.sendOk)).length
    let anyFailed := senders.any (fun c => !c.sendOk)
    if successCount = 0 ∧ anyFailed = true then
      .error .allFailed
    else
      .ok successCount

/-! ## Stdio transport: `myunla/gateway/transports/stdio.py` -/

/-- Backend tool descriptor (`mcp.Tool`), restricted to the `name` field the
cache lookup `_has_tool` consults. -/
structure McpTool where
  name : String
  deriving DecidableEq, Repr

/-- Result of a tool call (`mcp.types.CallToolResult`), with its single text
content flattened into `text`. -/
structure CallToolResult where
  text : String
  isError : Bool
  deriving DecidableEq, Repr

/-- State of an `STDIOTransport` (`myunla/gateway/transports/stdio.py`): the
server name, the `_tools_cache` list and the running flag. -/
structure STDIOTransport where
  serverName : String
  toolsCache : List McpTool
  isRunning : Bool
  deriving DecidableEq, Repr

/-- Fresh transport as built by `STDIOTransport.__init__`: empty cache, not
running. -/
def STDIOTransport.new (serverName : String) : STDIOTransport :=
  { serverName := serverName, toolsCache := [], isRunning := false }

/-- Embedding of `STDIOTransport._has_tool`: membership of the name in the
tools cache. -/
def STDIOTransport.hasTool (t : STDIOTransport) (toolName : String) : Bool :=
  t.toolsCache.any (fun tool => tool.name = toolName)

/-- Embedding of a successful `STDIOTransport.fetch_tools`: the backend's tool
list is returned and becomes the new `_tools_cache` (overwriting the previous
cache). The subprocess interaction itself is abstracted into the
`backendTools` argument. -/
def STDIOTransport.fetchTools (t : STDIOTransport) (backendTools : List McpTool) :
    STDIOTransport × List McpTool :=
  ({ t with toolsCache := backendTools }, backendTools)

/-- Embedding of `STDIOTransport.call_tools`: when `_has_tool` fails, return
the structured not-found error without touching the subprocess; otherwise the
call proceeds against the backend, whose outcome is the `backendResult`
argument. The first component records whether the backend subprocess was
contacted. -/
def STDIOTransport.callTools (t : STDIOTransport) (toolName : String)
    (backendResult : CallToolResult) : Bool × CallToolResult :=
  if t.hasTool toolName = false then
    (false,
      { text := "Tool " ++ toolName ++ " not found on server " ++ t.serverName,
        isError := true })
  else
    (true, backendResult)

/-! ## Gateway data model: `api/mcp.py` as consumed by `myunla/gateway`

`api/mcp.py` declares `Router(prefix, http_server_ref, sse_prefix, cors)` and
an `McpServer` without an `args` field, while every construction and use site
in the repository (`myunla/gateway/state.py`, `oas/conv.py`, spec §3) uses
`Router.server : str` and reads `McpServer.args`.  The records below follow
the use sites and the spec's data model; the mismatch of the dataclass
declaration itself is captured separately for claim C10. -/

/-- MCP server config (spec §3 `MCPServer`; fields read by
`state.py:_get_or_create_transport` and `_get_backend_proto_for_server`).
`api/mcp.py`'s dataclass omits `args`, which `state.py` nevertheless reads;
modelled per spec §3. -/
structure McpServer where
  name : String
  serverType : String
  command : String
  url : String
  args : List String
  policy : String
  preinstalled : Bool
  deriving DecidableEq, Repr

/-- HTTP server config (`api/mcp.py` `HttpServer`). -/
structure HttpServer where
  name : String
  description : String
  url : String
  tools : List String
  deriving DecidableEq, Repr

/-- Tool config (`api/mcp.py` `Tool`), restricted to the fields the state
build consumes. -/
structure GwTool where
  name : String
  description : String
  inputSchema : List (String × String)
  deriving DecidableEq, Repr

/-- Wire schema of a tool (`mcp.types.Tool` as produced by `to_tool_type`). -/
structure ToolSchema where
  name : String
  description : String
  inputSchema : List (String × String)
  deriving DecidableEq, Repr

/-- Modelled from the spec: `Tool.to_tool_type` is called by
`state.py:_build_allowed_tools` but is not defined anywhere under the sources;
per spec §3/§4.2 it materializes the tool's wire schema (name, description,
input schema). -/
def toToolType (t : GwTool) : ToolSchema :=
  { name := t.name, description := t.description, inputSchema := t.inputSchema }

/-- Router config (spec §3 `Router`; field names as used by `state.py` and
`oas/conv.py`: `prefix`, `server`, `sse_prefix`; the CORS policy is not
consumed by any claim and is omitted). -/
structure RouterCfg where
  pfx : String
  server : String
  ssePfx : String
  deriving DecidableEq, Repr

/-- Backend protocol tag (`state.py` `BackendProto`). -/
inductive BackendProto where
  | http
  | sse
  | streamable
  | stdio
  | grpc
  deriving DecidableEq, Repr

/-- Transport instance identity: reuse versus fresh creation is about object
identity, so a transport is modelled by an instance id. -/
structure TransportInst where
  id : Nat
  deriving DecidableEq, Repr

/-- Per-prefix runtime (`state.py` `Runtime`). Python dict fields are
association lists. -/
structure Runtime where
  backendProto : BackendProto
  router : RouterCfg
  httpServer : Option HttpServer
  mcpServer : Option McpServer
  tools : List (String × GwTool)
  toolsSchema : List ToolSchema
  transport : Option TransportInst
  deriving DecidableEq, Repr

/-- Gateway state (`state.py` `State`), restricted to the `runtime` map and
the metrics counter the claims mention. -/
structure GatewayState where
  runtime : List (String × Runtime)
  missingTools : Nat
  deriving DecidableEq, Repr

/-! ## Transport reuse: `state.py:_get_or_create_transport` (claim C3) -/

/-- Reuse branch of `State._get_or_create_transport`: the old state's
transport at `pfx` is taken when the old Runtime's `mcp_server` has the same
`type`, `command`, `url`, equal `len(args)` and equal `args` as the new
server (the chain of conditionals of state.py lines 472-489). -/
def tryReuseTransport (oldState : Option GatewayState) (srv : McpServer)
    (pfx : String) : Option TransportInst :=
  match oldState with
  | none => none
  | some old =>
    match dictGet old.runtime pfx with
    | none => none
    | some oldRt =>
      match oldRt.mcpServer with
      | none => none
      | some oldSrv =>
        if oldSrv.serverType = srv.serverType ∧ oldSrv.command = srv.command
            ∧ oldSrv.url = srv.url ∧ oldSrv.args.length = srv.args.length then
          if oldSrv.args = srv.args then oldRt.transport else none
        else
          none

/-- Modelled from the spec: `create_transport` is imported by `state.py` from
`myunla.gateway.transports` but no such function exists under the sources;
per spec §4.2 it creates a new transport for the server, modelled as the
caller-supplied fresh instance. -/
def createTransport (_srv : McpServer) (fresh : TransportInst) : TransportInst :=
  fresh

/-- Embedding of `State._get_or_create_transport`: reuse the old transport
when the configs match, otherwise call `create_transport` (here: allocate the
fresh instance `fresh`). -/
def getOrCreateTransport (oldState : Option GatewayState) (srv : McpServer)
    (pfx : String) (fresh : TransportInst) : TransportInst :=
  match tryReuseTransport oldState srv pfx with
  | some t => t
  | none => createTransport srv fresh

/-! ## Allowed tools: `state.py:_build_allowed_tools` (claim C4) -/

/-- Loop of `State._build_allowed_tools` over `server.tools`: a found name
appends its schema and sets `allowed_tools[name]`; a missing name increments
`metrics.missing_tools`. -/
def buildAllowedToolsLoop (names : List String) (idx : List (String × GwTool))
    (allowed : List (String × GwTool)) (schemas : List ToolSchema)
    (missing : Nat) : List (String × GwTool) × List ToolSchema × Nat :=
  match names with
  | [] => (allowed, schemas, missing)
  | n :: rest =>
    match dictGet idx n with
    | some t =>
      buildAllowedToolsLoop rest idx (dictInsert allowed n t)
        (schemas ++ [toToolType t]) missing
    | none =>
      buildAllowedToolsLoop rest idx allowed schemas (missing + 1)

/-- Embedding of `State._build_allowed_tools`, starting from empty
accumulators and the current `missing_tools` counter. -/
def buildAllowedTools (server : HttpServer) (idx : List (String × GwTool))
    (missing : Nat) : List (String × GwTool) × List ToolSchema × Nat :=
  buildAllowedToolsLoop server.tools idx [] [] missing

/-- Per-prefix effect of `State._process_http_servers` (state.py lines
323-332): the resolved Runtime is updated with `backend_proto = http`, the
server, and the allowed tools and schemas of `_build_allowed_tools`; the
second component is the updated `missing_tools` counter. -/
def processHttpServerRuntime (server : HttpServer)
    (idx : List (String × GwTool)) (missing : Nat) (rt : Runtime) :
    Runtime × Nat :=
  let r := buildAllowedTools server idx missing
  ({ rt with
      backendProto := .http
      httpServer := some server
      tools := r.1
      toolsSchema := r.2.1 },
    r.2.2)

/-! ## Lazy runtime creation: `state.py:State.get_runtime` (claim C10) -/

/-- Keyword names `state.py:176` passes to the `Router` constructor. -/
def getRuntimeRouterCallKwargs : List String := ["prefix", "server", "sse_prefix"]

/-- Field names the `api/mcp.py` `Router` dataclass declares (all without
defaults). -/
def routerDataclassFields : List String :=
  ["prefix", "http_server_ref", "sse_prefix", "cors"]

/-- Python dataclass call validity: every keyword must name a declared field
and (absent defaults) every field must be supplied, else the constructor call
raises `TypeError`. -/
def dataclassCallOk (fields kwargs : List String) : Bool :=
  kwargs.all (fun k => fields.contains k) && fields.all (fun f => kwargs.contains f)

/-- Python exceptions surfacing in the embedded `get_runtime`. -/
inductive PyErr where
  | typeErrorRouterInit
  deriving DecidableEq, Repr

/-- Embedding of `State.get_runtime`: return the existing Runtime unchanged,
or build a default Runtime whose construction executes
`Router(prefix=prefix, server="", sse_prefix="")` — a call that raises
`TypeError` whenever the keyword list does not fit the `api/mcp.py` `Router`
dataclass — and insert it under the prefix. -/
def GatewayState.getRuntime (s : GatewayState) (pfx : String) :
    Except PyErr (GatewayState × Runtime) :=
  match dictGet s.runtime pfx with
  | some rt => .ok (s, rt)
  | none =>
    if dataclassCallOk routerDataclassFields getRuntimeRouterCallKwargs then
      let rt : Runtime :=
        { backendProto := .http
          router := { pfx := pfx, server := "", ssePfx := "" }
          httpServer := none
          mcpServer := none
          tools := []
          toolsSchema := []
          transport := none }
      .ok ({ s with runtime := dictInsert s.runtime pfx rt }, rt)
    else
      .error .typeErrorRouterInit

/-! ## Python string primitives used by the dispatcher -/

/-- Python `s.rstrip(chars)`: remove every trailing character that belongs to
the character set (not the literal suffix). -/
def pyRstrip (s : String) (cs : List Char) : String :=
  ⟨((s.data.reverse.dropWhile (fun c => cs.contains c)).reverse)⟩

/-- Python `s.lstrip('/')`: drop leading slashes. -/
def lstripSlashes (s : String) : String :=
  ⟨s.data.dropWhile (fun c => c = '/')⟩

/-- Removal of a literal suffix (what `path.rstrip("/mcp")` is commonly
mistaken for): `s` without the trailing occurrence of `sfx`, `s` itself when
`sfx` is not a suffix. -/
def dropSuffixStr (s sfx : String) : String :=
  if sfx.data.isSuffixOf s.data then
    ⟨s.data.take (s.data.length - sfx.data.length)⟩
  else
    s

/-- Character set of the `path.rstrip("/mcp")` call in
`server.py:handle_post`. -/
def rstripMcpChars : List Char := ['/', 'm', 'c', 'p']

/-- Session prefix computed by `server.py:handle_post` lines 1425-1428 for a
fresh streamable session: `path.rstrip("/mcp")`, replaced by `"/"` when the
result is empty. -/
def storedPfxOf (path : String) : String :=
  let p := pyRstrip path rstripMcpChars
  if p = "" then "/" else p

/-! ## HTTP responses and the JSON-RPC method table: `server.py` -/

/-- JSON-RPC results the method table of `server.py` produces. -/
inductive RpcResult where
  | initResult
  | emptyObject
  | listTools (schemas : List ToolSchema)
  | callTool (result : CallToolResult)
  deriving DecidableEq, Repr

/-- Body of an HTTP response of `server.py`, by shape:
`empty` (no body), `statusAccepted` (the `{"status": "accepted"}` JSON of
`GatewayServer.send_accepted_response`), a JSON-RPC success envelope, or a
JSON-RPC error envelope. -/
inductive RespBody where
  | empty
  | statusAccepted
  | envelopeResult (rid : String) (result : RpcResult)
  | envelopeError (code : String) (message : String) (rid : Option String)
  deriving DecidableEq, Repr

/-- HTTP response: status code, extra headers, body. -/
structure HttpResponse where
  status : Nat
  headers : List (String × String)
  body : RespBody
  deriving DecidableEq, Repr

/-- Event pushed on a session's queue by the server: event name plus the
envelope its `json.dumps` payload serializes. -/
structure SseEvent where
  event : String
  payload : RespBody
  deriving DecidableEq, Repr

/-- Embedding of `GatewayServer.send_protocol_error_with_id`. -/
def protocolErrorWithId (message : String) (statusCode : Nat)
    (errorCode : String) (rid : Option String) : HttpResponse :=
  { status := statusCode, headers := [],
    body := .envelopeError errorCode message rid }

/-- Embedding of `GatewayServer.send_accepted_response`: HTTP 202 whose body
is the JSON `{"status": "accepted"}`. -/
def sendAcceptedResponse : HttpResponse :=
  { status := 202, headers := [], body := .statusAccepted }

/-- Embedding of `GatewayServer.send_success_response` (server.py lines
829-866): build the JSON-RPC success envelope; when `send_via_sse` is set and
a connection exists, additionally push it on the session queue as an event
named `"jsonrpc_response"`; always return `JSONResponse(envelope, 200)`. -/
def sendSuccessResponse (connPresent : Bool) (rid : String) (result : RpcResult)
    (sendViaSse : Bool) : List SseEvent × HttpResponse :=
  let events :=
    if sendViaSse ∧ connPresent then
      [{ event := "jsonrpc_response", payload := .envelopeResult rid result }]
    else
      []
  (events, { status := 200, headers := [], body := .envelopeResult rid result })

/-- Embedding of `GatewayServer.send_tool_execution_error`: push the error
envelope as a `"jsonrpc_error"` event when requested, and return it with HTTP
500. -/
def sendToolExecutionError (connPresent : Bool) (rid : String)
    (errorText : String) (sendViaSse : Bool) : List SseEvent × HttpResponse :=
  let body : RespBody :=
    .envelopeError "ToolExecutionError" ("Tool execution failed: " ++ errorText)
      (some rid)
  let events :=
    if sendViaSse ∧ connPresent then
      [{ event := "jsonrpc_error", payload := body }]
    else
      []
  (events, { status := 500, headers := [], body := body })

/-- Embedding of `GatewayServer.handle_jsonrpc_method` (server.py lines
608-827), the method table behind the `message` endpoint (`send_via_sse =
True` throughout).  Backend interactions are abstracted into arguments:
`initParamsOk` is whether the `initialize` params parse, `protoType` is
`state.get_proto_type(prefix)`, `transportPresent` whether
`state.get_transport(prefix)` is set, `httpSchemas` the runtime's
`tools_schema`, `backendSchemas` a successful `transport.fetch_tools()`, and
`toolCallOutcome` the result (or raised error text) of the tool call. -/
def handleJsonrpcMethod (connPresent : Bool) (method rid : String)
    (initParamsOk : Bool) (protoType : Option String) (transportPresent : Bool)
    (httpSchemas backendSchemas : List ToolSchema) (toolName : String)
    (toolCallOutcome : Except String CallToolResult) :
    List SseEvent × HttpResponse :=
  if method = "notifications/initialized" then
    ([], sendAcceptedResponse)
  else if method = "initialize" then
    if initParamsOk then
      sendSuccessResponse connPresent rid .initResult true
    else
      ([], protocolErrorWithId "Invalid initialize parameters" 400
        "InvalidParams" (some rid))
  else if method = "ping" then
    sendSuccessResponse connPresent rid .emptyObject true
  else if method = "tools/list" then
    match protoType with
    | none =>
      ([], protocolErrorWithId "Server configuration not found" 500
        "InternalError" (some rid))
    | some p =>
      if p = "http" then
        sendSuccessResponse connPresent rid (.listTools httpSchemas) true
      else if p = "stdio" ∨ p = "sse" ∨ p = "streamable" then
        if transportPresent then
          sendSuccessResponse connPresent rid (.listTools backendSchemas) true
        else
          ([], protocolErrorWithId "Failed to fetch tools" 500 "InternalError"
            (some rid))
      else
        ([], protocolErrorWithId "Unsupported protocol type" 400 "InvalidParams"
          (some rid))
  else if method = "tools/call" then
    match protoType with
    | none =>
      ([], protocolErrorWithId "Server configuration not found" 500
        "InternalError" (some rid))
    | some p =>
      if toolName = "" then
        ([], protocolErrorWithId "Invalid tool call parameters" 400
          "InvalidParams" (some rid))
      else if p = "http" then
        match toolCallOutcome with
        | .ok r => sendSuccessResponse connPresent rid (.callTool r) true
        | .error e => sendToolExecutionError connPresent rid e true
      else if p = "stdio" ∨ p = "sse" ∨ p = "streamable" then
        if transportPresent = false then
          ([], protocolErrorWithId "Server configuration not found" 404
            "MethodNotFound" (some rid))
        else
          match toolCallOutcome with
          | .ok r => sendSuccessResponse connPresent rid (.callTool r) true
          | .error e => sendToolExecutionError connPresent rid e true
      else
        ([], protocolErrorWithId "Unsupported protocol type" 400 "InvalidParams"
          (some rid))
  else
    ([], protocolErrorWithId "Unknown method" 404 "MethodNotFound" (some rid))

/-! ## Streamable POST: `server.py:handle_post` (claims C2, C9) -/

/-- Session metadata (`myunla/gateway/session/session.py` `Meta`), restricted
to the fields the claims mention. -/
structure SessionMeta where
  id : String
  pfx : String
  sessType : String
  deriving DecidableEq, Repr

/-- Session store content: id-keyed registered sessions (`MemoryStore._conns`
keyed by `meta.id`). -/
abbrev SessStore : Type := List (String × SessionMeta)

/-- Embedding of `MemoryStore.get` returning `none` where the source raises
`SessionNotFoundError`. -/
def storeGet (store : SessStore) (id : String) : Option SessionMeta :=
  dictGet store id

/-- Embedding of `MemoryStore.register`: fails when the id already exists,
otherwise stores the connection under `meta.id`. -/
def storeRegister (store : SessStore) (meta : SessionMeta) :
    Except Unit SessStore :=
  if dictContains store meta.id then .error () else .ok (store ++ [(meta.id, meta)])

/-- Embedding of the `initialize` slice of `GatewayServer.handle_post`
(server.py lines 1404-1491), after the Accept/Content-Type checks and JSON-RPC
decoding: `sessionIdHeader` is `request.headers.get("Mcp-Session-Id", "")`,
`freshId` the `uuid.uuid4()` the code would draw.  With a header naming a live
session the request is rejected as already initialized; with a header naming
no session the fall-through leaves `conn = None` and returns 500; with no
header a streamable session is registered under the rstrip-derived prefix and
`handle_mcp_request` answers the initialize in-band, with `Mcp-Session-Id` set
on the response. -/
def handlePostInit (store : SessStore) (path rid : String)
    (sessionIdHeader : String) (freshId : String) : SessStore × HttpResponse :=
  if sessionIdHeader ≠ "" then
    match storeGet store sessionIdHeader with
    | some _ =>
      (store, protocolErrorWithId "Invalid Request: Server already initialized"
        400 "InvalidRequest" (some rid))
    | none =>
      (store, protocolErrorWithId "Failed to get connection" 500 "InternalError"
        (some rid))
  else
    let meta : SessionMeta :=
      { id := freshId, pfx := storedPfxOf path, sessType := "streamable" }
    match storeRegister store meta with
    | .error _ =>
      (store, protocolErrorWithId "Failed to create session" 500 "InternalError"
        (some rid))
    | .ok store' =>
      let inner := (sendSuccessResponse true rid .initResult false).2
      (store',
        { inner with headers := inner.headers ++ [("Mcp-Session-Id", freshId)] })

/-! ## SSE bootstrap: `server.py:handle_sse` (claim C5) -/

/-- Endpoint URL construction of `handle_sse` (server.py lines 291-297):
`<prefix>/message?sessionId=<id>`, prefixed by `<sse_prefix>/` with the URL's
leading slashes stripped when the router configures a non-empty
`sse_prefix`. -/
def endpointUrlOf (ssePfx routePfx sessionId : String) : String :=
  let u := routePfx ++ "/message?sessionId=" ++ sessionId
  if ssePfx ≠ "" then ssePfx ++ "/" ++ lstripSlashes u else u

/-- First SSE frame yielded by `handle_sse`'s event generator. -/
def sseFirstFrame (ssePfx routePfx sessionId : String) : String :=
  "event: endpoint\ndata: " ++ endpointUrlOf ssePfx routePfx sessionId ++ "\n\n"

/-- Embedding of the session-establishing part of `GatewayServer.handle_sse`
(server.py lines 233-413): register a session of type `"sse"` under a fresh
UUID for the routed prefix, and emit the initial `endpoint` event as the
stream's first frame. -/
def handleSse (ssePfx routePfx freshId : String) : SessionMeta × String :=
  ({ id := freshId, pfx := routePfx, sessType := "sse" },
    sseFirstFrame ssePfx routePfx freshId)

/-! ## Theorems -/

/-- Claim C6: the in-memory session connection's event queue is bounded at
exactly 100 messages; `send` on a connection already holding 100 pending
messages fails with the queue-full error leaving the connection open and the
pending messages unchanged; `send` on a closed connection fails with the
connection-closed error; and a `send` that does not error appends exactly its
message at the tail of the queue. -/
theorem claim_c6_memory_send :
    queueMaxSize = 100
    ∧ (∀ (c : MemoryConnection) (m : Message), c.closed = false →
        c.queue.length = 100 →
        c.sendStep m = (c, some .queueFull))
    ∧ (∀ (c : MemoryConnection) (m : Message), c.closed = true →
        c.sendStep m = (c, some .connectionClosed))
    ∧ (∀ (c : MemoryConnection) (m : Message), c.closed = false →
        c.queue.length < 100 →
        c.sendStep m = ({ c with queue := c.queue ++ [m] }, none)) := by
  refine ⟨rfl, ?_, ?_, ?_⟩
  · intro c m hclosed hlen
    simp [MemoryConnection.sendStep, MemoryConnection.send, hclosed, hlen,
      queueMaxSize]
  · intro c m hclosed
    simp [MemoryConnection.sendStep, MemoryConnection.send, hclosed]
  · intro c m hclosed hlen
    simp [MemoryConnection.sendStep, MemoryConnection.send, hclosed,
      queueMaxSize, Nat.not_le.mpr hlen]

/-- Witness for C6 at concrete connections: a full open queue rejects with
queue-full and stays intact, a closed connection rejects with
connection-closed, an open non-full queue appends at the tail. -/
theorem claim_c6_memory_send_witness :
    MemoryConnection.sendStep
        { queue := List.replicate 100 { event := "message", data := "x" },
          closed := false }
        { event := "message", data := "y" }
      = ({ queue := List.replicate 100 { event := "message", data := "x" },
           closed := false }, some .queueFull)
    ∧ MemoryConnection.sendStep { queue := [], closed := true }
        { event := "message", data := "y" }
      = ({ queue := [], closed := true }, some .connectionClosed)
    ∧ MemoryConnection.sendStep { queue := [], closed := false }
        { event := "m", data := "d" }
      = ({ queue := [{ event := "m", data := "d" }], closed := false }, none) := by
  refine ⟨claim_c6_memory_send.2.1 _ _ rfl (by simp),
    claim_c6_memory_send.2.2.1 _ _ rfl, ?_⟩
  have h := claim_c6_memory_send.2.2.2
    { queue := [], closed := false } { event := "m", data := "d" } rfl (by decide)
  simpa using h

/-- Claim C7: on the stdio transport, `call_tools` with a tool name absent
from the tools cache returns an `isError` not-found result without contacting
the backend subprocess; the cache is empty on a fresh transport, so before any
successful `fetch_tools` every call returns this result; `fetch_tools`
replaces the cache with the backend's list. -/
theorem claim_c7_stdio_unknown_tool :
    (∀ (t : STDIOTransport) (nm : String) (r : CallToolResult),
      (∀ tool ∈ t.toolsCache, tool.name ≠ nm) →
      t.callTools nm r =
        (false,
          { text := "Tool " ++ nm ++ " not found on server " ++ t.serverName,
            isError := true }))
    ∧ (∀ serverName : String, (STDIOTransport.new serverName).toolsCache = [])
    ∧ (∀ (serverName nm : String) (r : CallToolResult),
        (STDIOTransport.new serverName).callTools nm r =
          (false,
            { text := "Tool " ++ nm ++ " not found on server " ++ serverName,
              isError := true }))
    ∧ (∀ (t : STDIOTransport) (backendTools : List McpTool),
        (t.fetchTools backendTools).1.toolsCache = backendTools) := by
  have hmain : ∀ (t : STDIOTransport) (nm : String) (r : CallToolResult),
      (∀ tool ∈ t.toolsCache, tool.name ≠ nm) →
      t.callTools nm r =
        (false,
          { text := "Tool " ++ nm ++ " not found on server " ++ t.serverName,
            isError := true }) := by
    intro t nm r h
    have hh : t.hasTool nm = false := by
      simp only [STDIOTransport.hasTool, List.any_eq_false, decide_eq_true_eq]
      exact h
    simp [STDIOTransport.callTools, hh]
  exact ⟨hmain, fun _ => rfl,
    fun s nm r => hmain (STDIOTransport.new s) nm r (by simp [STDIOTransport.new]),
    fun _ _ => rfl⟩

/-- Witness for C7: a transport whose cache holds only `"echo"` answers a
call for `"nope"` with the not-found error without contacting the backend. -/
theorem claim_c7_stdio_unknown_tool_witness :
    STDIOTransport.callTools
        { serverName := "s1", toolsCache := [{ name := "echo" }],
          isRunning := true } "nope" { text := "backend", isError := false }
      = (false,
          { text := "Tool nope not found on server s1", isError := true }) :=
  claim_c7_stdio_unknown_tool.1
    { serverName := "s1", toolsCache := [{ name := "echo" }], isRunning := true }
    "nope" { text := "backend", isError := false } (by decide)

/-- Claim C10: `State.get_runtime` on a prefix absent from the runtime map
executes `Router(prefix=..., server="", sse_prefix="")`, a constructor call
whose keywords do not fit the `api/mcp.py` `Router` dataclass
(`prefix, http_server_ref, sse_prefix, cors`), so the call raises `TypeError`
instead of inserting a default Runtime; for a present prefix the existing
Runtime is returned with the state unchanged. -/
theorem claim_c10_get_runtime_typeerror :
    GatewayState.getRuntime { runtime := [], missingTools := 0 } "/t/a"
      = .error .typeErrorRouterInit
    ∧ dataclassCallOk routerDataclassFields getRuntimeRouterCallKwargs = false
    ∧ (GatewayState.getRuntime
        { runtime :=
            [("/t/a",
              { backendProto := .http,
                router := { pfx := "/t/a", server := "s1", ssePfx := "" },
                httpServer := none, mcpServer := none, tools := [],
                toolsSchema := [], transport := none })],
          missingTools := 0 } "/t/a"
      = .ok
          ({ runtime :=
              [("/t/a",
                { backendProto := .http,
                  router := { pfx := "/t/a", server := "s1", ssePfx := "" },
                  httpServer := none, mcpServer := none, tools := [],
                  toolsSchema := [], transport := none })],
             missingTools := 0 },
           { backendProto := .http,
             router := { pfx := "/t/a", server := "s1", ssePfx := "" },
             httpServer := none, mcpServer := none, tools := [],
             toolsSchema := [], transport := none })) := by
  refine ⟨rfl, by decide, rfl⟩

/-- Claim C1: on the `message` endpoint, each of the four request methods is
answered with `JSONResponse(envelope, 200)` — not `202 Accepted` with an
empty body — while the envelope is pushed on the paired SSE stream as an
event named `"jsonrpc_response"`, not `"message"`; concrete evaluations of
the embedded `handle_jsonrpc_method` at a registered session exhibit the
divergence. -/
theorem claim_c1_message_endpoint_status :
    handleJsonrpcMethod true "ping" "1" true (some "http") true [] [] ""
        (.ok { text := "", isError := false })
      = ([{ event := "jsonrpc_response",
            payload := .envelopeResult "1" .emptyObject }],
         { status := 200, headers := [],
           body := .envelopeResult "1" .emptyObject })
    ∧ handleJsonrpcMethod true "initialize" "2" true (some "http") true [] [] ""
        (.ok { text := "", isError := false })
      = ([{ event := "jsonrpc_response",
            payload := .envelopeResult "2" .initResult }],
         { status := 200, headers := [],
           body := .envelopeResult "2" .initResult })
    ∧ handleJsonrpcMethod true "tools/list" "3" true (some "http") true
        [{ name := "echo", description := "", inputSchema := [] }] [] ""
        (.ok { text := "", isError := false })
      = ([{ event := "jsonrpc_response",
            payload := .envelopeResult "3"
              (.listTools [{ name := "echo", description := "", inputSchema := [] }]) }],
         { status := 200, headers := [],
           body := .envelopeResult "3"
             (.listTools [{ name := "echo", description := "", inputSchema := [] }]) })
    ∧ handleJsonrpcMethod true "tools/call" "4" true (some "http") true [] []
        "echo" (.ok { text := "ok", isError := false })
      = ([{ event := "jsonrpc_response",
            payload := .envelopeResult "4"
              (.callTool { text := "ok", isError := false }) }],
         { status := 200, headers := [],
           body := .envelopeResult "4"
             (.callTool { text := "ok", isError := false }) })
    ∧ (200 : Nat) ≠ 202
    ∧ RespBody.envelopeResult "1" .emptyObject ≠ .empty
    ∧ "jsonrpc_response" ≠ "message" := by
  refine ⟨rfl, rfl, rfl, rfl, by decide, by decide, by decide⟩

/-- Claim C8: `CompositeNotifier.notify_update` raises `NotifierError` when no
child can send; otherwise it attempts every child whose `can_send()` is true,
returns (with the success count, which is then positive) whenever at least one
such child succeeded, and raises `NotifierError` exactly when every sending
child failed. -/
theorem claim_c8_composite_notify :
    (∀ cs : List ChildNotifier, (∀ c ∈ cs, c.canSend = false) →
      notifyUpdate cs = .error .wrongRole)
    ∧ (∀ cs : List ChildNotifier,
        (∃ c ∈ cs, c.canSend = true ∧ c.sendOk = true) →
        notifyUpdate cs =
          .ok ((cs.filter (fun c => c.canSend)).filter (fun c => c.sendOk)).length
        ∧ 0 < ((cs.filter (fun c => c.canSend)).filter (fun c => c.sendOk)).length)
    ∧ (∀ cs : List ChildNotifier, (∃ c ∈ cs, c.canSend = true) →
        (notifyUpdate cs = .error .allFailed ↔
          ∀ c ∈ cs, c.canSend = true → c.sendOk = false)) := by
  refine ⟨?_, ?_, ?_⟩
  · intro cs h
    have hany : cs.any (fun c => c.canSend) = false := by
      simp only [List.any_eq_false]
      exact fun c hc => by simp [h c hc]
    simp [notifyUpdate, hany]
  · intro cs hex
    obtain ⟨c, hc, hsend, hok⟩ := hex
    have hany : cs.any (fun c => c.canSend) = true :=
      List.any_eq_true.mpr ⟨c, hc, hsend⟩
    have hmem : c ∈ (cs.filter (fun c => c.canSend)).filter (fun c => c.sendOk) := by
      refine List.mem_filter.mpr ⟨List.mem_filter.mpr ⟨hc, ?_⟩, ?_⟩ <;>
        simp [hsend, hok]
    have hpos :
        0 < ((cs.filter (fun c => c.canSend)).filter (fun c => c.sendOk)).length :=
      List.length_pos.mpr (List.ne_nil_of_mem hmem)
    have hsc :
        ((cs.filter (fun c => c.canSend)).filter (fun c => c.sendOk)).length ≠ 0 :=
      Nat.pos_iff_ne_zero.mp hpos
    refine ⟨?_, hpos⟩
    simp only [notifyUpdate]
    rw [if_neg (by simp [hany]), if_neg (fun hcond => hsc hcond.1)]
  · intro cs hex
    obtain ⟨c, hc, hsend⟩ := hex
    have hany : cs.any (fun c => c.canSend) = true :=
      List.any_eq_true.mpr ⟨c, hc, hsend⟩
    constructor
    · intro h cc hcc hccsend
      simp only [notifyUpdate] at h
      rw [if_neg (by simp [hany])] at h
      by_cases hcond :
          ((cs.filter (fun c => c.canSend)).filter (fun c => c.sendOk)).length = 0
            ∧ (cs.filter (fun c => c.canSend)).any (fun c => !c.sendOk) = true
      · have hempty :
            (cs.filter (fun c => c.canSend)).filter (fun c => c.sendOk) = [] :=
          List.length_eq_zero.mp hcond.1
        have := List.filter_eq_nil_iff.mp hempty cc
          (List.mem_filter.mpr ⟨hcc, by simp [hccsend]⟩)
        simpa using this
      · rw [if_neg hcond] at h
        exact absurd h (by simp)
    · intro h
      have hempty :
          (cs.filter (fun c => c.canSend)).filter (fun c => c.sendOk) = [] := by
        rw [List.filter_eq_nil_iff]
        intro cc hcc
        have h1 := List.mem_filter.mp hcc
        have hfail := h cc h1.1 (by simpa using h1.2)
        simp [hfail]
      have hcfail : c.sendOk = false := h c hc hsend
      have hanyfail :
          (cs.filter (fun c => c.canSend)).any (fun c => !c.sendOk) = true :=
        List.any_eq_true.mpr
          ⟨c, List.mem_filter.mpr ⟨hc, by simp [hsend]⟩, by simp [hcfail]⟩
      simp only [notifyUpdate]
      rw [if_neg (by simp [hany]), if_pos ⟨by rw [hempty]; rfl, hanyfail⟩]

/-- Witness for C8 at concrete children: with no sender the call raises the
role error; with one failing and one succeeding sender it returns with count
1; with a single failing sender the all-failed error is raised. -/
theorem claim_c8_composite_notify_witness :
    notifyUpdate [{ canSend := false, canReceive := true, sendOk := true }]
      = .error .wrongRole
    ∧ notifyUpdate
        [{ canSend := true, canReceive := false, sendOk := false },
         { canSend := true, canReceive := false, sendOk := true }]
      = .ok 1
    ∧ notifyUpdate [{ canSend := true, canReceive := false, sendOk := false }]
      = .error .allFailed := by
  refine ⟨claim_c8_composite_notify.1 _ (by decide), ?_, ?_⟩
  · exact (claim_c8_composite_notify.2.1
      [{ canSend := true, canReceive := false, sendOk := false },
       { canSend := true, canReceive := false, sendOk := true }]
      ⟨{ canSend := true, canReceive := false, sendOk := true }, by decide⟩).1
  · exact (claim_c8_composite_notify.2.2
      [{ canSend := true, canReceive := false, sendOk := false }]
      ⟨{ canSend := true, canReceive := false, sendOk := false }, by decide⟩).mpr
      (by decide)

/-- Claim C3: in `State._get_or_create_transport`, the old state's transport
at the prefix is reused exactly when the old Runtime carries an `mcp_server`
with identical `type`, `command`, `url` and `args`; in every other case the
transport is the one `create_transport` builds. -/
theorem claim_c3_transport_reuse :
    (∀ (old : GatewayState) (srv : McpServer) (pfx : String) (t : TransportInst),
      tryReuseTransport (some old) srv pfx = some t ↔
        ∃ rt, dictGet old.runtime pfx = some rt ∧
          ∃ os, rt.mcpServer = some os ∧
            os.serverType = srv.serverType ∧ os.command = srv.command ∧
            os.url = srv.url ∧ os.args = srv.args ∧ rt.transport = some t)
    ∧ (∀ (old : GatewayState) (srv : McpServer) (pfx : String)
        (fresh t : TransportInst),
        tryReuseTransport (some old) srv pfx = some t →
        getOrCreateTransport (some old) srv pfx fresh = t)
    ∧ (∀ (oldState : Option GatewayState) (srv : McpServer) (pfx : String)
        (fresh : TransportInst),
        tryReuseTransport oldState srv pfx = none →
        getOrCreateTransport oldState srv pfx fresh = createTransport srv fresh) := by
  refine ⟨?_, ?_, ?_⟩
  · intro old srv pfx t
    constructor
    · intro h
      simp only [tryReuseTransport] at h
      split at h
      · exact absurd h (by simp)
      · next rt hrt =>
        split at h
        · exact absurd h (by simp)
        · next os hos =>
          split at h
          · next hcfg =>
            split at h
            · next hargs =>
              exact ⟨rt, hrt, os, hos, hcfg.1, hcfg.2.1, hcfg.2.2.1, hargs, h⟩
            · exact absurd h (by simp)
          · exact absurd h (by simp)
    · rintro ⟨rt, hrt, os, hos, h1, h2, h3, h4, h5⟩
      simp only [tryReuseTransport, hrt, hos]
      rw [if_pos ⟨h1, h2, h3, by rw [h4]⟩, if_pos h4]
      exact h5
  · intro old srv pfx fresh t h
    unfold getOrCreateTransport
    rw [h]
  · intro oldState srv pfx fresh h
    unfold getOrCreateTransport
    rw [h]

/-- Witness for C3 at a concrete old state: a matching old server transfers
its transport instance; changing only `command` makes the build fall back to
`create_transport`'s fresh instance. -/
theorem claim_c3_transport_reuse_witness :
    getOrCreateTransport
        (some
          { runtime :=
              [("/t/a",
                { backendProto := .stdio,
                  router := { pfx := "/t/a", server := "m1", ssePfx := "" },
                  httpServer := none,
                  mcpServer := some
                    { name := "m1", serverType := "stdio", command := "foo --bar",
                      url := "", args := [], policy := "on_demand",
                      preinstalled := false },
                  tools := [], toolsSchema := [],
                  transport := some { id := 7 } })],
            missingTools := 0 })
        { name := "m1", serverType := "stdio", command := "foo --bar", url := "",
          args := [], policy := "on_demand", preinstalled := false }
        "/t/a" { id := 99 }
      = { id := 7 }
    ∧ getOrCreateTransport
        (some
          { runtime :=
              [("/t/a",
                { backendProto := .stdio,
                  router := { pfx := "/t/a", server := "m1", ssePfx := "" },
                  httpServer := none,
                  mcpServer := some
                    { name := "m1", serverType := "stdio", command := "foo --bar",
                      url := "", args := [], policy := "on_demand",
                      preinstalled := false },
                  tools := [], toolsSchema := [],
                  transport := some { id := 7 } })],
            missingTools := 0 })
        { name := "m1", serverType := "stdio", command := "foo --baz", url := "",
          args := [], policy := "on_demand", preinstalled := false }
        "/t/a" { id := 99 }
      = { id := 99 } := by
  constructor
  · exact claim_c3_transport_reuse.2.1 _ _ _ _ _ (by decide)
  · exact claim_c3_transport_reuse.2.2 _ _ _ _ (by decide)

/-- Claim C2: POST `<prefix>/mcp` with method `initialize` and no
`Mcp-Session-Id` header registers a fresh streamable session under the
freshly drawn UUID and answers 200 with the `Mcp-Session-Id` header set to
it; with a header naming an existing live session it answers
400/`InvalidRequest` ("already initialized") and registers nothing. -/
theorem claim_c2_streamable_init :
    (∀ (store : SessStore) (path rid freshId : String),
      dictContains store freshId = false →
      handlePostInit store path rid "" freshId =
        (store ++ [(freshId,
          { id := freshId, pfx := storedPfxOf path, sessType := "streamable" })],
         { status := 200,
           headers := [("Mcp-Session-Id", freshId)],
           body := .envelopeResult rid .initResult }))
    ∧ (∀ (store : SessStore) (path rid sid freshId : String) (m : SessionMeta),
        sid ≠ "" → storeGet store sid = some m →
        handlePostInit store path rid sid freshId =
          (store,
            protocolErrorWithId "Invalid Request: Server already initialized"
              400 "InvalidRequest" (some rid))) := by
  constructor
  · intro store path rid freshId h
    simp [handlePostInit, storeRegister, h, sendSuccessResponse]
  · intro store path rid sid freshId m hsid hm
    simp [handlePostInit, hsid, hm]

/-- Witness for C2 on a concrete store: a headerless initialize registers the
fresh id and echoes it in the `Mcp-Session-Id` header; repeating initialize
with that id is rejected as already initialized with the store unchanged. -/
theorem claim_c2_streamable_init_witness :
    handlePostInit [] "/t/a/mcp" "x" "" "11111111-2222-3333-4444-555555555555"
      = ([("11111111-2222-3333-4444-555555555555",
           { id := "11111111-2222-3333-4444-555555555555",
             pfx := storedPfxOf "/t/a/mcp", sessType := "streamable" })],
         { status := 200,
           headers := [("Mcp-Session-Id", "11111111-2222-3333-4444-555555555555")],
           body := .envelopeResult "x" .initResult })
    ∧ handlePostInit
        [("11111111-2222-3333-4444-555555555555",
          { id := "11111111-2222-3333-4444-555555555555",
            pfx := "/t/a", sessType := "streamable" })]
        "/t/a/mcp" "x" "11111111-2222-3333-4444-555555555555" "z"
      = ([("11111111-2222-3333-4444-555555555555",
           { id := "11111111-2222-3333-4444-555555555555",
             pfx := "/t/a", sessType := "streamable" })],
         protocolErrorWithId "Invalid Request: Server already initialized"
           400 "InvalidRequest" (some "x")) := by
  constructor
  · exact claim_c2_streamable_init.1 [] "/t/a/mcp" "x" _ (by decide)
  · exact claim_c2_streamable_init.2
      [("11111111-2222-3333-4444-555555555555",
        { id := "11111111-2222-3333-4444-555555555555",
          pfx := "/t/a", sessType := "streamable" })]
      "/t/a/mcp" "x" "11111111-2222-3333-4444-555555555555" "z"
      { id := "11111111-2222-3333-4444-555555555555",
        pfx := "/t/a", sessType := "streamable" }
      (by decide) (by decide)

/-- Strings are equal when their character lists are. -/
theorem stringDataEq {s t : String} (h : s.data = t.data) : s = t := by
  cases s; cases t; exact congrArg String.mk h

/-- Character list of a concatenation. -/
theorem dataAppend (s t : String) : (s ++ t).data = s.data ++ t.data := rfl

/-- Dropping a satisfied head block before an append. -/
theorem dropWhileAppendOfAll (p : Char → Bool) (l₁ l₂ : List Char)
    (h : ∀ a ∈ l₁, p a = true) :
    (l₁ ++ l₂).dropWhile p = l₂.dropWhile p := by
  induction l₁ with
  | nil => rfl
  | cons a t ih =>
    simp [List.dropWhile_cons, h a (by simp),
      ih (fun x hx => h x (by simp [hx]))]

/-- Python `lstrip('/')` of `"/" ++ rest ++ tail` keeps `rest ++ tail` when
`rest` is nonempty and does not itself start with a slash. -/
theorem lstripSlashesSlashAppend (rest tail : String)
    (h1 : rest ≠ "") (h2 : rest.data.head? ≠ some '/') :
    lstripSlashes ("/" ++ rest ++ tail) = rest ++ tail := by
  apply stringDataEq
  cases hr : rest.data with
  | nil => exact absurd (stringDataEq (by simp [hr])) h1
  | cons c cl =>
    have hc : ¬(c = '/') := fun hcc => h2 (by simp [hr, hcc])
    simp [lstripSlashes, dataAppend, hr, List.dropWhile_cons, hc]

/-- Claim C5: `GET <prefix>/sse` on a routed prefix registers a session of
type `sse` under the fresh UUID, and the first SSE frame is exactly
`event: endpoint` / `data: <sse_prefix><prefix>/message?sessionId=<id>`
terminated by a blank line, the `sse_prefix` part being the router's
configured value (empty when unset). -/
theorem claim_c5_sse_first_frame :
    ∀ (ssePfx rest freshId : String),
      rest ≠ "" → rest.data.head? ≠ some '/' →
      handleSse ssePfx ("/" ++ rest) freshId =
        ({ id := freshId, pfx := "/" ++ rest, sessType := "sse" },
         "event: endpoint\ndata: " ++ ssePfx ++ ("/" ++ rest) ++
           "/message?sessionId=" ++ freshId ++ "\n\n") := by
  intro ssePfx rest freshId h1 h2
  unfold handleSse
  refine Prod.ext rfl ?_
  show sseFirstFrame ssePfx ("/" ++ rest) freshId = _
  unfold sseFirstFrame endpointUrlOf
  by_cases hsp : ssePfx = ""
  · rw [if_neg (by simp [hsp])]
    apply stringDataEq
    simp [dataAppend, hsp]
  · rw [if_pos hsp]
    rw [show ("/" ++ rest) ++ "/message?sessionId=" ++ freshId
          = "/" ++ rest ++ ("/message?sessionId=" ++ freshId) by
        apply stringDataEq; simp [dataAppend]]
    rw [lstripSlashesSlashAppend rest ("/message?sessionId=" ++ freshId) h1 h2]
    apply stringDataEq
    simp [dataAppend]

/-- Witness for C5 at the spec's example values: with no `sse_prefix` the
first frame is `event: endpoint\ndata: /t/a/message?sessionId=<id>\n\n`, and
with `sse_prefix = "/ext"` the advertised URL is prefixed accordingly. -/
theorem claim_c5_sse_first_frame_witness :
    handleSse "" "/t/a" "2d931510-d99f-494a-8c67-87feb05e1594"
      = ({ id := "2d931510-d99f-494a-8c67-87feb05e1594", pfx := "/t/a",
           sessType := "sse" },
         "event: endpoint\ndata: /t/a/message?sessionId=2d931510-d99f-494a-8c67-87feb05e1594\n\n")
    ∧ handleSse "/ext" "/t/a" "2d931510-d99f-494a-8c67-87feb05e1594"
      = ({ id := "2d931510-d99f-494a-8c67-87feb05e1594", pfx := "/t/a",
           sessType := "sse" },
         "event: endpoint\ndata: /ext/t/a/message?sessionId=2d931510-d99f-494a-8c67-87feb05e1594\n\n") := by
  constructor
  · have h := claim_c5_sse_first_frame "" "t/a"
      "2d931510-d99f-494a-8c67-87feb05e1594" (by decide) (by decide)
    exact h.trans (by decide)
  · have h := claim_c5_sse_first_frame "/ext" "t/a"
      "2d931510-d99f-494a-8c67-87feb05e1594" (by decide) (by decide)
    exact h.trans (by decide)

/-- Dropping a prefix never lengthens a list. -/
theorem dropWhileLengthLe (p : Char → Bool) (l : List Char) :
    (l.dropWhile p).length ≤ l.length := by
  induction l with
  | nil => simp
  | cons a t ih =>
    by_cases h : p a
    · simp only [List.dropWhile_cons, h, if_true]
      exact Nat.le_succ_of_le ih
    · simp [List.dropWhile_cons, h]

/-- Claim C9: the prefix stored for a fresh streamable session is
`path.rstrip("/mcp")` — character-set stripping, not suffix removal — so for
`/team/mcp` the stored prefix is `/tea`, not `/team`; in general, whenever the
routing prefix ends in `m`, `c` or `p`, the stored prefix differs from the
routing prefix that served the request. -/
theorem claim_c9_rstrip_divergence :
    storedPfxOf "/team/mcp" = "/tea"
    ∧ dropSuffixStr "/team/mcp" "/mcp" = "/team"
    ∧ storedPfxOf "/team/mcp" ≠ dropSuffixStr "/team/mcp" "/mcp"
    ∧ (∀ (routePfx : String) (c : Char),
        routePfx.data.getLast? = some c →
        (c = 'm' ∨ c = 'c' ∨ c = 'p') →
        storedPfxOf (routePfx ++ "/mcp") ≠ routePfx) := by
  refine ⟨by decide, by decide, by decide, ?_⟩
  intro routePfx c hlast hc
  have hrevhead : routePfx.data.reverse.head? = some c := by
    rw [List.head?_reverse]; exact hlast
  cases hrevl : routePfx.data.reverse with
  | nil => rw [hrevl] at hrevhead; exact absurd hrevhead (by simp)
  | cons a t =>
    have hac : a = c := by
      rw [hrevl] at hrevhead; simpa using hrevhead
    subst hac
    have hmem : rstripMcpChars.contains a = true := by
      rcases hc with h | h | h <;> simp [h, rstripMcpChars]
    have hdata : (routePfx ++ "/mcp").data.reverse
        = ['p', 'c', 'm', '/'] ++ routePfx.data.reverse := by
      rw [dataAppend, List.reverse_append]; rfl
    have hdrop : (routePfx ++ "/mcp").data.reverse.dropWhile
          (fun ch => rstripMcpChars.contains ch)
        = t.dropWhile (fun ch => rstripMcpChars.contains ch) := by
      rw [hdata, dropWhileAppendOfAll _ _ _ (by decide), hrevl,
        List.dropWhile_cons, if_pos hmem]
    have hlen : (t.dropWhile (fun ch => rstripMcpChars.contains ch)).length
        < routePfx.data.length := by
      have h1 := dropWhileLengthLe (fun ch => rstripMcpChars.contains ch) t
      have h2 : routePfx.data.length = t.length + 1 := by
        have := congrArg List.length hrevl
        simpa using this
      omega
    have hpy : pyRstrip (routePfx ++ "/mcp") rstripMcpChars
        = ⟨(t.dropWhile (fun ch => rstripMcpChars.contains ch)).reverse⟩ := by
      unfold pyRstrip
      rw [hdrop]
    unfold storedPfxOf
    rw [hpy]
    by_cases hz :
        (⟨(t.dropWhile (fun ch => rstripMcpChars.contains ch)).reverse⟩ : String)
          = ""
    · rw [if_pos hz]
      intro heq
      have hsl : routePfx.data = ['/'] := by
        have := congrArg String.data heq
        simpa using this.symm
      rw [hsl] at hlast
      simp at hlast
      rcases hc with h | h | h <;> rw [h] at hlast <;> exact absurd hlast (by decide)
    · rw [if_neg hz]
      intro heq
      have hde := congrArg String.data heq
      have hlen2 := congrArg List.length hde
      rw [List.length_reverse] at hlen2
      omega

/-- Witness for C9 universal part: the routing prefix `/team` ends in `m`, and
the stored session prefix for path `/team/mcp` indeed differs from it. -/
theorem claim_c9_rstrip_divergence_witness :
    storedPfxOf ("/team" ++ "/mcp") ≠ "/team" :=
  claim_c9_rstrip_divergence.2.2.2 "/team" 'm' (by decide) (Or.inl rfl)

/-- A successful dict lookup implies key membership. -/
theorem dictGetSomeContains {V : Type} {d : List (String × V)} {k : String}
    {v : V} (h : dictGet d k = some v) : dictContains d k = true := by
  simp only [dictGet, Option.map_eq_some'] at h
  obtain ⟨p, hp, hpv⟩ := h
  have h1 : p ∈ d := List.mem_of_find?_eq_some hp
  have h2 := List.find?_some hp
  exact List.any_eq_true.mpr ⟨p, h1, h2⟩

/-- Key membership after a dict lookup / insert. -/
theorem dictContainsIffMemKeys {V : Type} (d : List (String × V)) (k : String) :
    dictContains d k = true ↔ k ∈ d.map Prod.fst := by
  simp only [dictContains, List.any_eq_true, List.mem_map, decide_eq_true_eq]

/-- The key list after a dict assignment: unchanged for an existing key,
extended by the key otherwise. -/
theorem dictInsertKeys {V : Type} (d : List (String × V)) (k : String) (v : V) :
    (dictInsert d k v).map Prod.fst = d.map Prod.fst
    ∨ (dictInsert d k v).map Prod.fst = d.map Prod.fst ++ [k] := by
  by_cases hc : dictContains d k
  · left
    simp only [dictInsert, hc, if_true, List.map_map]
    apply List.map_congr_left
    intro p hp
    by_cases hpk : p.1 = k
    · simp [Function.comp, hpk]
    · simp [Function.comp, hpk]
  · right
    simp [dictInsert, hc]

/-- Assigning a new key grows a dict by one entry. -/
theorem dictInsertLength {V : Type} (d : List (String × V)) (k : String) (v : V)
    (h : dictContains d k = false) :
    (dictInsert d k v).length = d.length + 1 := by
  simp [dictInsert, h]

/-- A key present after an assignment was present before or is the assigned
key. -/
theorem dictContainsInsertElim {V : Type} {d : List (String × V)} {k k' : String}
    {v : V} (h : dictContains (dictInsert d k v) k' = true) :
    dictContains d k' = true ∨ k' = k := by
  have hm := (dictContainsIffMemKeys _ _).mp h
  rcases dictInsertKeys d k v with hk | hk
  · rw [hk] at hm
    exact Or.inl ((dictContainsIffMemKeys _ _).mpr hm)
  · rw [hk, List.mem_append] at hm
    rcases hm with hm | hm
    · exact Or.inl ((dictContainsIffMemKeys _ _).mpr hm)
    · right; simpa using hm

/-- The `missing_tools` counter after `_build_allowed_tools` grows by the
number of entries of the server's tool list absent from the tool index. -/
theorem buildLoopMissing (names : List String) (idx : List (String × GwTool))
    (allowed : List (String × GwTool)) (schemas : List ToolSchema)
    (missing : Nat) :
    (buildAllowedToolsLoop names idx allowed schemas missing).2.2
      = missing + (names.filter (fun n => (dictGet idx n).isNone)).length := by
  induction names generalizing allowed schemas missing with
  | nil => simp [buildAllowedToolsLoop]
  | cons n rest ih =>
    cases hg : dictGet idx n with
    | some t =>
      simp [buildAllowedToolsLoop, hg, ih]
    | none =>
      simp [buildAllowedToolsLoop, hg, ih]
      omega

/-- The schema list after `_build_allowed_tools` appends, in the order of the
server's tool list, the schema of every found entry. -/
theorem buildLoopSchemas (names : List String) (idx : List (String × GwTool))
    (allowed : List (String × GwTool)) (schemas : List ToolSchema)
    (missing : Nat) :
    (buildAllowedToolsLoop names idx allowed schemas missing).2.1
      = schemas ++ names.filterMap (fun n => (dictGet idx n).map toToolType) := by
  induction names generalizing allowed schemas missing with
  | nil => simp [buildAllowedToolsLoop]
  | cons n rest ih =>
    cases hg : dictGet idx n with
    | some t =>
      simp [buildAllowedToolsLoop, hg, ih]
    | none =>
      simp [buildAllowedToolsLoop, hg, ih]

/-- Every key of the allowed-tools dict comes from the accumulator or the tool
index. -/
theorem buildLoopKeys (names : List String) (idx : List (String × GwTool))
    (allowed : List (String × GwTool)) (schemas : List ToolSchema)
    (missing : Nat) (k : String)
    (h : dictContains
      (buildAllowedToolsLoop names idx allowed schemas missing).1 k = true) :
    dictContains allowed k = true ∨ dictContains idx k = true := by
  induction names generalizing allowed schemas missing with
  | nil => exact Or.inl (by simpa [buildAllowedToolsLoop] using h)
  | cons n rest ih =>
    rw [buildAllowedToolsLoop] at h
    cases hg : dictGet idx n with
    | some t =>
      rw [hg] at h
      rcases ih _ _ _ h with h1 | h1
      · rcases dictContainsInsertElim h1 with h2 | h2
        · exact Or.inl h2
        · subst h2
          exact Or.inr (dictGetSomeContains hg)
      · exact Or.inr h1
    | none =>
      rw [hg] at h
      exact ih _ _ _ h

/-- Without duplicate names, the allowed-tools dict gains exactly one entry
per found name. -/
theorem buildLoopAllowedLength (names : List String)
    (idx : List (String × GwTool)) (allowed : List (String × GwTool))
    (schemas : List ToolSchema) (missing : Nat) (hnd : names.Nodup)
    (hfresh : ∀ n ∈ names, dictContains allowed n = false) :
    ((buildAllowedToolsLoop names idx allowed schemas missing).1).length
      = allowed.length
        + (names.filter (fun n => (dictGet idx n).isSome)).length := by
  induction names generalizing allowed schemas missing with
  | nil => simp [buildAllowedToolsLoop]
  | cons n rest ih =>
    rw [buildAllowedToolsLoop]
    have hndr : rest.Nodup := hnd.of_cons
    have hnmem : n ∉ rest := (List.nodup_cons.mp hnd).1
    cases hg : dictGet idx n with
    | some t =>
      have hcn : dictContains allowed n = false := hfresh n (by simp)
      have hrec := ih (dictInsert allowed n t) (schemas ++ [toToolType t])
        missing hndr ?hfr
      case hfr =>
        intro m hm
        by_cases hcm : dictContains (dictInsert allowed n t) m
        · exfalso
          rcases dictContainsInsertElim hcm with h1 | h1
          · rw [hfresh m (by simp [hm])] at h1
            exact absurd h1 (by simp)
          · subst h1; exact hnmem hm
        · simpa using hcm
      rw [hrec, dictInsertLength _ _ _ hcn]
      simp [hg]
      omega
    | none =>
      have hrec := ih allowed schemas (missing + 1) hndr
        (fun m hm => hfresh m (by simp [hm]))
      rw [hrec]
      simp [hg]

/-- Counting found entries: the filter-map over lookups has one output per
successful lookup. -/
theorem filterMapLengthIsSome (names : List String)
    (idx : List (String × GwTool)) :
    (names.filterMap (fun n => (dictGet idx n).map toToolType)).length
      = (names.filter (fun n => (dictGet idx n).isSome)).length := by
  induction names with
  | nil => rfl
  | cons n rest ih =>
    cases hg : dictGet idx n with
    | some t => simp [List.filterMap_cons, List.filter_cons, hg, ih]
    | none => simp [List.filterMap_cons, List.filter_cons, hg, ih]

/-- Claim C4 (amended): for a Runtime built for an HTTPServer, the allowed
tool keys are a subset of the Config's tool names, each missing entry of
`HTTPServer.tools` increments `missing_tools` by one, and `tools_schema`
lists the schemas of the found entries in the order of `HTTPServer.tools`, so
its length is the number of found entries — which equals `|tools|` when
`HTTPServer.tools` has no duplicate name (the repeated-name case is the
counterexample to the original claim). -/
theorem claim_c4_allowed_tools :
    ∀ (server : HttpServer) (idx : List (String × GwTool)) (m : Nat),
      (∀ k, dictContains (buildAllowedTools server idx m).1 k = true →
        dictContains idx k = true)
      ∧ (buildAllowedTools server idx m).2.2
          = m + (server.tools.filter (fun n => (dictGet idx n).isNone)).length
      ∧ (buildAllowedTools server idx m).2.1
          = server.tools.filterMap (fun n => (dictGet idx n).map toToolType)
      ∧ ((buildAllowedTools server idx m).2.1).length
          = (server.tools.filter (fun n => (dictGet idx n).isSome)).length
      ∧ (server.tools.Nodup →
          ((buildAllowedTools server idx m).2.1).length
            = ((buildAllowedTools server idx m).1).length)
      ∧ (∀ rt : Runtime,
          (processHttpServerRuntime server idx m rt).1.tools
              = (buildAllowedTools server idx m).1
            ∧ (processHttpServerRuntime server idx m rt).1.toolsSchema
              = (buildAllowedTools server idx m).2.1
            ∧ (processHttpServerRuntime server idx m rt).2
              = (buildAllowedTools server idx m).2.2) := by
  intro server idx m
  have hschemas : (buildAllowedTools server idx m).2.1
      = server.tools.filterMap (fun n => (dictGet idx n).map toToolType) := by
    simpa [buildAllowedTools] using buildLoopSchemas server.tools idx [] [] m
  refine ⟨?_, ?_, ?_, ?_, ?_,
    fun rt => ⟨by simp [processHttpServerRuntime], by simp [processHttpServerRuntime],
      by simp [processHttpServerRuntime]⟩⟩
  · intro k hk
    rcases buildLoopKeys server.tools idx [] [] m k hk with h | h
    · exact absurd h (by simp [dictContains])
    · exact h
  · exact buildLoopMissing server.tools idx [] [] m
  · exact hschemas
  · rw [hschemas]
    exact filterMapLengthIsSome server.tools idx
  · intro hnd
    have hlen : ((buildAllowedTools server idx m).1).length
        = (server.tools.filter (fun n => (dictGet idx n).isSome)).length := by
      simpa [buildAllowedTools] using
        buildLoopAllowedLength server.tools idx [] [] m hnd
          (by intro n hn; simp [dictContains])
    rw [hschemas, hlen]
    exact filterMapLengthIsSome server.tools idx

/-- Counterexample to C4 as stated: with `HTTPServer.tools = ["echo", "echo"]`
and a Config defining one tool `echo`, `_build_allowed_tools` yields two
schemas but a single-entry tools dict, so `|tools_schema| ≠ |tools|`. -/
theorem claim_c4_duplicate_counterexample :
    ((buildAllowedTools
        { name := "s1", description := "", url := "http://u",
          tools := ["echo", "echo"] }
        [("echo", { name := "echo", description := "", inputSchema := [] })]
        0).2.1).length = 2
    ∧ ((buildAllowedTools
        { name := "s1", description := "", url := "http://u",
          tools := ["echo", "echo"] }
        [("echo", { name := "echo", description := "", inputSchema := [] })]
        0).1).length = 1
    ∧ ¬ (((buildAllowedTools
        { name := "s1", description := "", url := "http://u",
          tools := ["echo", "echo"] }
        [("echo", { name := "echo", description := "", inputSchema := [] })]
        0).2.1).length
      = ((buildAllowedTools
        { name := "s1", description := "", url := "http://u",
          tools := ["echo", "echo"] }
        [("echo", { name := "echo", description := "", inputSchema := [] })]
        0).1).length) := by
  refine ⟨rfl, rfl, by decide⟩

/-- Witness for C4 at a duplicate-free server: the subset, missing-count and
schema-length components evaluated at concrete inputs. -/
theorem claim_c4_allowed_tools_witness :
    dictContains
        [("echo",
          ({ name := "echo", description := "", inputSchema := [] } : GwTool))]
        "echo" = true
    ∧ (buildAllowedTools
        { name := "s1", description := "", url := "http://u",
          tools := ["echo", "nope"] }
        [("echo", { name := "echo", description := "", inputSchema := [] })]
        3).2.2 = 4
    ∧ ((buildAllowedTools
        { name := "s1", description := "", url := "http://u",
          tools := ["echo", "nope"] }
        [("echo", { name := "echo", description := "", inputSchema := [] })]
        3).2.1).length
      = ((buildAllowedTools
        { name := "s1", description := "", url := "http://u",
          tools := ["echo", "nope"] }
        [("echo", { name := "echo", description := "", inputSchema := [] })]
        3).1).length := by
  refine ⟨?_, ?_, ?_⟩
  · exact (claim_c4_allowed_tools
      { name := "s1", description := "", url := "http://u",
        tools := ["echo", "nope"] }
      [("echo", { name := "echo", description := "", inputSchema := [] })] 3).1
      "echo" (by decide)
  · exact ((claim_c4_allowed_tools
      { name := "s1", description := "", url := "http://u",
        tools := ["echo", "nope"] }
      [("echo", { name := "echo", description := "", inputSchema := [] })]
      3).2.1).trans (by decide)
  · exact (claim_c4_allowed_tools
      { name := "s1", description := "", url := "http://u",
        tools := ["echo", "nope"] }
      [("echo", { name := "echo", description := "", inputSchema := [] })]
      3).2.2.2.2.1 (by decide)

end MyUnla
